import Mathlib

/-!
Verification of the Kopru HTTP client core (`src/unnamed/part_000`).

The development shallowly embeds the parts of the TypeScript source that the
checked properties speak about: config merging, interceptor chains with
registration/ejection, query-string construction, response decoding, and the
error finalizer `handleError`, together with the signal wiring of
`executeRequest`.  JavaScript records are association lists in insertion
order; optional fields are `Option`; thrown JavaScript values are a small
`JSValue` type; asynchronous code is modelled by its value semantics (the
pipeline is strictly sequential, so `await` points do not interleave).
-/

namespace Kopru

/-! ## JavaScript records (string-keyed objects, insertion order) -/

/-- Property lookup on a string-keyed object: first matching key, `none` when
the key is absent.  Well-formed JS objects have unique keys, so first-match
agrees with JS property access. -/
def lookupRec : List (String × String) → String → Option String
  | [], _ => none
  | p :: rest, k => if p.1 = k then some p.2 else lookupRec rest k

/-- The JS object spread `\x7b...d, ...o\x7d`: the keys of `d` in their order, each
overwritten by `o`'s value when `o` also has the key, followed by the keys
only `o` has, in `o`'s order. -/
def spreadRec (d o : List (String × String)) : List (String × String) :=
  (d.map (fun p => match lookupRec o p.1 with
    | some v => (p.1, v)
    | none => p))
    ++ o.filter (fun p => (lookupRec d p.1).isNone)

/-! ## Query parameter values -/

/-- A value of the `params` record:
`string | number | boolean | null | undefined` (numbers restricted to
integers, which covers their JS text representation exactly). -/
inductive ParamVal where
  | pStr (s : String)
  | pNum (n : Int)
  | pBool (b : Bool)
  | pNull
  | pUndef
deriving Repr, DecidableEq

/-- `value === null || value === undefined`: the entries `executeRequest`
skips when building the query string. -/
def ParamVal.isNullish : ParamVal → Bool
  | .pNull => true
  | .pUndef => true
  | _ => false

/-- JS `String(value)`: the natural text representation used by
`fullURL.searchParams.append(key, String(value))`. -/
def ParamVal.stringify : ParamVal → String
  | .pStr s => s
  | .pNum n => toString n
  | .pBool true => "true"
  | .pBool false => "false"
  | .pNull => "null"
  | .pUndef => "undefined"

/-! ## RequestConfig -/

/-- The `RequestConfig` interface.  Every field is optional in the source;
`none` models an absent key (JS `undefined`).  `body` is kept opaque as its
serialized text, `signal` and `onUploadProgress` are recorded by presence
only (the claims never inspect their contents). -/
structure RequestConfig where
  baseURL : Option String := none
  url : Option String := none
  method : Option String := none
  headers : Option (List (String × String)) := none
  params : Option (List (String × ParamVal)) := none
  body : Option String := none
  timeout : Option Nat := none
  responseType : Option String := none
  signal : Option Unit := none
  onUploadProgress : Option Unit := none
deriving Repr, DecidableEq

/-- The shallow spread `\x7b...d, ...c\x7d` of two configs: every field of `c`
that is present replaces the corresponding field of `d`, headers included
(no key-level merge).  Used by the constructor (line 55) and `create`
(line 88). -/
def shallowMerge (d c : RequestConfig) : RequestConfig where
  baseURL := c.baseURL <|> d.baseURL
  url := c.url <|> d.url
  method := c.method <|> d.method
  headers := c.headers <|> d.headers
  params := c.params <|> d.params
  body := c.body <|> d.body
  timeout := c.timeout <|> d.timeout
  responseType := c.responseType <|> d.responseType
  signal := c.signal <|> d.signal
  onUploadProgress := c.onUploadProgress <|> d.onUploadProgress

/-- `HttpClient.mergeConfig` (lines 138-147): the shallow spread of defaults
and per-call config, except that `headers` is the key-level spread of the two
header records (absent header records default to the empty object). -/
def mergeConfig (d c : RequestConfig) : RequestConfig where
  baseURL := c.baseURL <|> d.baseURL
  url := c.url <|> d.url
  method := c.method <|> d.method
  headers := some (spreadRec (d.headers.getD []) (c.headers.getD []))
  params := c.params <|> d.params
  body := c.body <|> d.body
  timeout := c.timeout <|> d.timeout
  responseType := c.responseType <|> d.responseType
  signal := c.signal <|> d.signal
  onUploadProgress := c.onUploadProgress <|> d.onUploadProgress

/-- The initializer of the `defaults` field (lines 41-49). -/
def initialDefaults : RequestConfig where
  baseURL := some ""
  headers := some [("Content-Type", "application/json")]
  method := some "GET"
  timeout := some 0
  responseType := some "json"

/-! ## Interceptors -/

/-- One registered interceptor: the optional fulfillment and rejection
handlers of `interceptors.request.use` / `interceptors.response.use`.
`tag` is instrumentation only (not in the source): a marker identifying the
registration, used to state which interceptor's handlers a chain run
invokes.  A handler returning `Except.error` models raising / returning a
rejected promise. -/
structure Interceptor (V E : Type) where
  tag : Nat
  onFulfilled : Option (V → Except E V)
  onRejected : Option (E → Except E V)

/-- `use` (lines 61-65 / 73-77): push the interceptor and return the index
`length - 1` as its handle. -/
def useInterceptor {V E : Type} (chain : List (Interceptor V E)) (i : Interceptor V E) :
    List (Interceptor V E) × Nat :=
  (chain ++ [i], chain.length)

/-- `eject` (lines 66-70 / 78-82): `splice(id, 1)` when `0 <= id < length`,
otherwise a no-op. -/
def ejectInterceptor {V E : Type} (chain : List (Interceptor V E)) (id : Nat) :
    List (Interceptor V E) :=
  if id < chain.length then chain.take id ++ chain.drop (id + 1) else chain

/-- `runRequestInterceptors` / `runResponseInterceptors` (lines 149-187),
instrumented with the trace of tags of interceptors whose handlers were
invoked.  Per loop iteration: no fulfillment handler means the interceptor
is skipped entirely; a fulfillment result becomes the current value; a raise
is given to the same interceptor's rejection handler when present (its
result continues the chain as a success) and otherwise propagates, ending
the loop. -/
def runChainT {V E : Type} : List (Interceptor V E) → V → Except E V × List Nat
  | [], v => (.ok v, [])
  | i :: rest, v =>
    match i.onFulfilled with
    | none => runChainT rest v
    | some f =>
      match f v with
      | .ok v2 =>
        let r := runChainT rest v2
        (r.1, i.tag :: r.2)
      | .error e =>
        match i.onRejected with
        | none => (.error e, [i.tag])
        | some g =>
          match g e with
          | .ok v2 =>
            let r := runChainT rest v2
            (r.1, i.tag :: r.2)
          | .error e2 => (.error e2, [i.tag])

/-- The value outcome of a chain run, forgetting the instrumentation. -/
def runChain {V E : Type} (chain : List (Interceptor V E)) (v : V) : Except E V :=
  (runChainT chain v).1

/-! ## Thrown JavaScript values and the error finalizer -/

/-- The mutable-property part of an Error-shaped thrown object, with the
fields `handleError` and `parseResponse` read or write. -/
structure ErrObj where
  name : String
  message : String
  config : Option RequestConfig := none
  status : Option Nat := none
  statusText : Option String := none
  headers : Option (List (String × String)) := none
  data : Option String := none
deriving Repr, DecidableEq

/-- A JavaScript value that a pipeline stage can reject with: `null`,
`undefined`, a primitive, or a property-bearing (Error-shaped) object. -/
inductive JSValue where
  | vNull
  | vUndef
  | vStr (s : String)
  | vNum (n : Int)
  | vBool (b : Bool)
  | vErr (e : ErrObj)
deriving Repr, DecidableEq

/-- Objects are the only property-assignable values. -/
def JSValue.isObject : JSValue → Bool
  | .vErr _ => true
  | _ => false

/-- Reading `error.name`: a TypeError on `null`/`undefined`, `undefined`
(`none`) on primitives, the property on objects. -/
def readName : JSValue → Except Unit (Option String)
  | .vNull => .error ()
  | .vUndef => .error ()
  | .vStr _ => .ok none
  | .vNum _ => .ok none
  | .vBool _ => .ok none
  | .vErr e => .ok (some e.name)

/-- Lines 302-310 of `handleError`: if `error.config` is truthy the error is
rethrown as is; otherwise `httpError.config = config` is assigned and the
error rethrown.  The method body is strict-mode code (a class body), so the
assignment on a primitive raises a TypeError. -/
def attachConfig (error : JSValue) (config : RequestConfig) : Except Unit ErrObj :=
  match error with
  | .vErr e => .ok (if e.config.isSome then e else { e with config := some config })
  | _ => .error ()

/-- The template literal of line 297 interpolates `config.timeout`; an absent
field prints as the text `undefined`. -/
def timeoutMessage (t : Option Nat) : String :=
  "Request timeout of " ++ (match t with | some n => toString n | none => "undefined") ++ "ms exceeded"

/-- What `handleError` makes the caller see: either a TypeError raised inside
the finalizer itself (carrying no config), or a rethrown Error-shaped
object. -/
inductive HandleResult where
  | typeErr
  | thrown (e : ErrObj)
deriving Repr, DecidableEq

/-- Whether the delivered failure value carries a `config` property. -/
def HandleResult.carriesConfig : HandleResult → Bool
  | .typeErr => false
  | .thrown e => e.config.isSome

/-- Whether the delivered failure value is timeout-classified, i.e. carries
the timeout message shape of line 297. -/
def HandleResult.isTimeoutShaped : HandleResult → Bool
  | .typeErr => false
  | .thrown e => "Request timeout of".toList.isPrefixOf e.message.toList

/-- `HttpClient.handleError` (lines 295-311): an `AbortError`-named rejection
becomes a fresh timeout error carrying the given config; any other rejection
is rethrown with a config attached when it lacks one.  Reading `error.name`
on `null`/`undefined`, and assigning `config` on a primitive, raise a
TypeError inside the finalizer. -/
def handleError (error : JSValue) (config : RequestConfig) : HandleResult :=
  match readName error with
  | .error _ => .typeErr
  | .ok n =>
    if n = some "AbortError" then
      .thrown { name := "Error", message := timeoutMessage config.timeout, config := some config }
    else
      match attachConfig error config with
      | .error _ => .typeErr
      | .ok e => .thrown e

/-- The `catch` branch of `request` (lines 103-105): every failure of the
pipeline reaches `handleError` paired with the caller's original per-call
config — not the merged config computed at line 95. -/
def requestCatch (config : RequestConfig) (error : JSValue) : HandleResult :=
  handleError error config

/-- The rejection value the transport produces when the active signal fires:
a DOMException named `AbortError` with no `config` property.  Its shape is
identical whether the caller's handle or the internal timer's controller
aborted — the provenance is not recoverable from the value. -/
def abortRejection : JSValue :=
  .vErr { name := "AbortError", message := "The operation was aborted." }

/-- Who can abort a given invocation, per the wiring of lines 202-209: a
caller-supplied signal is passed through unchanged and no controller or
timer is created; otherwise an internal controller is created and a timer
armed only when `timeout > 0`. -/
inductive CancelSource where
  | caller
  | timer
deriving Repr, DecidableEq

/-- The cancellation source `executeRequest` wires for an effective config. -/
def activeCancelSource (merged : RequestConfig) : Option CancelSource :=
  if merged.signal.isSome then some .caller
  else if 0 < merged.timeout.getD 0 then some .timer
  else none

/-- The duration the internal timer is armed with (line 207-208): the
`timeout` of the config `executeRequest` receives, i.e. the merged config. -/
def timerDuration (defaults cfg : RequestConfig) : Nat :=
  ((mergeConfig defaults cfg).timeout).getD 0

/-! ## Query string construction -/

/-- The `params` loop of `executeRequest` (lines 194-200): walk the entries
in insertion order, skipping `null`/`undefined` values and appending
`(key, String(value))` pairs to the URL's search parameters. -/
def buildQuery (params : List (String × ParamVal)) : List (String × String) :=
  params.foldl
    (fun acc p => if p.2.isNullish then acc else acc ++ [(p.1, p.2.stringify)])
    []

/-! ## Response decoding -/

/-- A decoded response body: the empty object and `null` that the 204
shortcut produces, or the payload the mode-specific decoder yielded. -/
inductive Decoded where
  | emptyObj
  | nullVal
  | payload (kind : String) (raw : String)
deriving Repr, DecidableEq

/-- The `Response` the transport resolves with, as far as the client reads
it.  Each `...Body` field is the outcome of the corresponding one-shot
decode method (`none`: the decode promise rejected). -/
structure RawResponse where
  ok : Bool
  status : Nat
  statusText : String
  headers : List (String × String)
  jsonBody : Option Decoded
  textBody : Option Decoded
  blobBody : Option Decoded
  arrayBufferBody : Option Decoded
deriving Repr, DecidableEq

/-- `HttpClient.getResponseData` (lines 276-293): a 204 short-circuits to the
empty object in `json` mode and `null` otherwise; every other status
dispatches on the response type, defaulting to `json`. -/
def getResponseData (r : RawResponse) (responseType : String) : Option Decoded :=
  if r.status = 204 then
    some (if responseType = "json" then .emptyObj else .nullVal)
  else
    match responseType with
    | "json" => r.jsonBody
    | "text" => r.textBody
    | "blob" => r.blobBody
    | "arraybuffer" => r.arrayBufferBody
    | _ => r.jsonBody

/-- The protocol error `parseResponse` constructs for a non-ok response. -/
structure ProtocolError where
  message : String
  status : Nat
  statusText : String
  headers : List (String × String)
  data : Option Decoded
deriving Repr, DecidableEq

/-- Outcome of `parseResponse`: resolve with data, throw the constructed
protocol error, or let an ok-path decode failure propagate. -/
inductive ParseOutcome where
  | ok (d : Decoded)
  | protocolErr (e : ProtocolError)
  | decodeRaise
deriving Repr, DecidableEq

/-- `HttpClient.parseResponse` (lines 249-274): a non-ok response builds an
error from status/statusText/headers and a best-effort decoded body (decode
failures are swallowed), but a non-ok 204 returns `null` instead of
throwing; an ok response returns the decoded body, propagating decode
failures. -/
def parseResponse (r : RawResponse) (responseType : String) : ParseOutcome :=
  if !r.ok then
    let d := getResponseData r responseType
    if r.status = 204 then
      .ok .nullVal
    else
      .protocolErr
        { message := "Request failed with status " ++ toString r.status
          status := r.status
          statusText := r.statusText
          headers := r.headers
          data := d }
  else
    match getResponseData r responseType with
    | some d => .ok d
    | none => .decodeRaise

/-! ## The client facade -/

/-- The response object threaded through the response interceptor chain. -/
structure HttpResponseM where
  data : Decoded
  status : Nat
  statusText : String
  headers : List (String × String)
  config : RequestConfig
deriving Repr, DecidableEq

/-- A client instance: its defaults and its two interceptor chains. -/
structure HttpClient where
  defaults : RequestConfig
  requestInterceptors : List (Interceptor RequestConfig JSValue)
  responseInterceptors : List (Interceptor HttpResponseM JSValue)

/-- The constructor (lines 54-56): defaults are the shallow spread of the
built-in initializer with the given config; both interceptor lists start
empty (lines 51-52). -/
def HttpClient.ofConfig (cfg : RequestConfig) : HttpClient where
  defaults := shallowMerge initialDefaults cfg
  requestInterceptors := []
  responseInterceptors := []

/-- `HttpClient.create` (lines 87-89): `new HttpClient(\x7b...this.defaults,
...config\x7d)` — a shallow spread, not `mergeConfig`. -/
def HttpClient.create (c : HttpClient) (cfg : RequestConfig) : HttpClient :=
  HttpClient.ofConfig (shallowMerge c.defaults cfg)

/-- The default exported instance (line 315). -/
def kopru : HttpClient :=
  HttpClient.ofConfig {}

/-! ## Record lookup lemmas -/

/-- Looking a key up in the overwrite pass of the spread: the key resolves in
`d`, with `o`'s value substituted when `o` also binds it. -/
theorem lookupRec_mapOverride (d o : List (String × String)) (k : String) :
    lookupRec (d.map (fun p => match lookupRec o p.1 with
      | some v => (p.1, v)
      | none => p)) k
      = (lookupRec d k).map (fun v => (lookupRec o k).getD v) := by
  induction d with
  | nil => simp [lookupRec]
  | cons p rest ih =>
    cases ho : lookupRec o p.1 with
    | some v =>
      by_cases h : p.1 = k
      · subst h
        simp [lookupRec, ho]
      · simp [lookupRec, ho, h, ih]
    | none =>
      by_cases h : p.1 = k
      · subst h
        simp [lookupRec, ho]
      · simp [lookupRec, ho, h, ih]

/-- Looking a key up among the entries of `o` that are new relative to `d`. -/
theorem lookupRec_filterNew (d o : List (String × String)) (k : String) :
    lookupRec (o.filter (fun p => (lookupRec d p.1).isNone)) k
      = if (lookupRec d k).isNone then lookupRec o k else none := by
  induction o with
  | nil => simp [lookupRec]
  | cons p rest ih =>
    by_cases hd : (lookupRec d p.1).isNone
    · rw [List.filter_cons_of_pos (by simpa using hd)]
      by_cases h : p.1 = k
      · subst h
        simp [lookupRec, hd]
      · simp [lookupRec, h, ih]
    · rw [List.filter_cons_of_neg (by simpa using hd)]
      by_cases h : p.1 = k
      · subst h
        rw [ih, if_neg hd, if_neg hd]
      · rw [ih]
        by_cases hdk : (lookupRec d k).isNone
        · rw [if_pos hdk, if_pos hdk]
          simp [lookupRec, h]
        · rw [if_neg hdk, if_neg hdk]

/-- Lookup distributes over concatenation, first list winning. -/
theorem lookupRec_append (l1 l2 : List (String × String)) (k : String) :
    lookupRec (l1 ++ l2) k = (lookupRec l1 k <|> lookupRec l2 k) := by
  induction l1 with
  | nil => simp [lookupRec]
  | cons p rest ih =>
    by_cases h : p.1 = k <;> simp [lookupRec, h, ih]

/-- The JS object spread has last-write-wins lookup semantics: the second
record's binding when present, the first record's otherwise. -/
theorem lookupRec_spreadRec (d o : List (String × String)) (k : String) :
    lookupRec (spreadRec d o) k = (lookupRec o k <|> lookupRec d k) := by
  rw [spreadRec, lookupRec_append, lookupRec_mapOverride, lookupRec_filterNew]
  cases hd : lookupRec d k <;> cases ho : lookupRec o k <;> simp

/-- C5: for all config pairs `(d, o)`, the merged config's headers are the
defaults' headers overlaid with the override's headers — a key from either
record resolves, the override winning ties — and every non-header field of
the merged config is the override's when present and the default's
otherwise (full replacement, never a combination). -/
theorem mergeConfig_overlay_spec (d o : RequestConfig) (k : String) :
    lookupRec ((mergeConfig d o).headers.getD []) k
        = (lookupRec (o.headers.getD []) k <|> lookupRec (d.headers.getD []) k)
    ∧ (mergeConfig d o).baseURL = (o.baseURL <|> d.baseURL)
    ∧ (mergeConfig d o).url = (o.url <|> d.url)
    ∧ (mergeConfig d o).method = (o.method <|> d.method)
    ∧ (mergeConfig d o).params = (o.params <|> d.params)
    ∧ (mergeConfig d o).body = (o.body <|> d.body)
    ∧ (mergeConfig d o).timeout = (o.timeout <|> d.timeout)
    ∧ (mergeConfig d o).responseType = (o.responseType <|> d.responseType)
    ∧ (mergeConfig d o).signal = (o.signal <|> d.signal)
    ∧ (mergeConfig d o).onUploadProgress = (o.onUploadProgress <|> d.onUploadProgress) := by
  refine ⟨?_, rfl, rfl, rfl, rfl, rfl, rfl, rfl, rfl, rfl⟩
  simpa [mergeConfig] using lookupRec_spreadRec (d.headers.getD []) (o.headers.getD []) k

/-! ## Query construction lemmas -/

/-- The appending fold of the query loop, generalized over the accumulator. -/
theorem buildQuery_foldl (params : List (String × ParamVal)) (acc : List (String × String)) :
    params.foldl
        (fun acc p => if p.2.isNullish then acc else acc ++ [(p.1, p.2.stringify)]) acc
      = acc ++ params.filterMap
          (fun p => if p.2.isNullish then none else some (p.1, p.2.stringify)) := by
  induction params generalizing acc with
  | nil => simp
  | cons p rest ih =>
    by_cases h : p.2.isNullish <;>
      simp [List.foldl_cons, List.filterMap_cons, h, ih]

/-- C9: entries of the query-parameter mapping whose value is null or absent
never appear in the composed query, and every other entry appears, in
mapping insertion order, as its key paired with the JS stringification of
its value. -/
theorem query_params_filter_and_order (params : List (String × ParamVal)) :
    buildQuery params
        = params.filterMap
            (fun p => if p.2.isNullish then none else some (p.1, p.2.stringify))
    ∧ ∀ k s, (k, s) ∈ buildQuery params
        ↔ ∃ v : ParamVal, (k, v) ∈ params ∧ v.isNullish = false ∧ s = v.stringify := by
  have h1 : buildQuery params
      = params.filterMap
          (fun p => if p.2.isNullish then none else some (p.1, p.2.stringify)) := by
    simpa [buildQuery] using buildQuery_foldl params []
  refine ⟨h1, fun k s => ?_⟩
  rw [h1, List.mem_filterMap]
  constructor
  · rintro ⟨⟨k1, v⟩, hmem, hf⟩
    by_cases h : v.isNullish <;> simp [h] at hf
    exact ⟨v, by simpa [hf.1] using hmem, by simp [h], hf.2.symm⟩
  · rintro ⟨v, hmem, hnn, rfl⟩
    exact ⟨(k, v), hmem, by simp [hnn]⟩

/-- C4: a response with status 204 decodes to the empty object when the
decode mode is `json` and to `null` for any other mode, and the decode
outcome is independent of the response's success flag — identical whether
the 204 is on the success path or on the non-ok path of `parseResponse`. -/
theorem status_204_decode (r : RawResponse) (mode : String) (b : Bool)
    (h : r.status = 204) :
    getResponseData r mode
        = some (if mode = "json" then Decoded.emptyObj else Decoded.nullVal)
    ∧ getResponseData { r with ok := b } mode = getResponseData r mode := by
  constructor
  · simp [getResponseData, h]
  · simp [getResponseData]

theorem status_204_decode_witness :
    getResponseData ⟨true, 204, "No Content", [], none, none, none, none⟩ "text"
        = some (if "text" = "json" then Decoded.emptyObj else Decoded.nullVal)
    ∧ getResponseData { (⟨true, 204, "No Content", [], none, none, none, none⟩ : RawResponse) with ok := false } "text"
        = getResponseData ⟨true, 204, "No Content", [], none, none, none, none⟩ "text" :=
  status_204_decode ⟨true, 204, "No Content", [], none, none, none, none⟩ "text" false rfl

/-- C10: when the pipeline rejects with a value that is not an object — null,
undefined, or a primitive — the error finalizer itself raises a TypeError
(reading `error.name` on null/undefined, or the strict-mode assignment
`httpError.config = config` on a primitive), so `request()` rejects with a
TypeError carrying no RequestConfig. -/
theorem nonobject_rejection_bare_typeerror (v : JSValue) (cfg : RequestConfig)
    (h : v.isObject = false) :
    requestCatch cfg v = HandleResult.typeErr
    ∧ (requestCatch cfg v).carriesConfig = false := by
  cases v <;>
    simp_all [requestCatch, handleError, readName, attachConfig,
      JSValue.isObject, HandleResult.carriesConfig]

theorem nonobject_rejection_bare_typeerror_witness :
    (JSValue.vStr "boom").isObject = false
    ∧ (requestCatch {} (JSValue.vStr "boom") = HandleResult.typeErr
        ∧ (requestCatch {} (JSValue.vStr "boom")).carriesConfig = false) :=
  ⟨rfl, nonobject_rejection_bare_typeerror (JSValue.vStr "boom") {} rfl⟩

/-- C3 (counterexample): a transport-level failure — an error object carrying
no config — run with per-call config `\x7b url: "/u" \x7d` against the default
client is delivered carrying exactly that per-call config, which differs
from the effective merged config of the invocation; so the delivered error
does not carry the merged config the claim requires. -/
theorem error_carries_per_call_not_effective_config :
    requestCatch { url := some "/u" }
        (JSValue.vErr { name := "TypeError", message := "Failed to fetch" })
      = HandleResult.thrown
          { name := "TypeError", message := "Failed to fetch",
            config := some { url := some "/u" } }
    ∧ ({ url := some "/u" } : RequestConfig)
        ≠ mergeConfig kopru.defaults { url := some "/u" } := by
  refine ⟨by decide, fun h => ?_⟩
  have hh := congrArg RequestConfig.headers h
  simp [mergeConfig, kopru, HttpClient.ofConfig, shallowMerge, initialDefaults] at hh

/-- C3 (amended): every failing invocation whose rejection value is an object
is delivered carrying a RequestConfig, and the finalizer determines which:
an AbortError-named rejection is replaced by a fresh timeout-classified
error carrying the per-call config, discarding any config the rejection
already had; any other object rejection is rethrown unchanged when it
already carries a config, and otherwise has the per-call config attached.
In no case is the merged effective config attached (counterexample above),
and non-object rejections escape as a bare TypeError (C10). -/
theorem object_rejection_config_characterization (e : ErrObj) (cfg : RequestConfig) :
    requestCatch cfg (JSValue.vErr e)
      = HandleResult.thrown
          (if e.name = "AbortError" then
            { name := "Error", message := timeoutMessage cfg.timeout, config := some cfg }
          else if e.config.isSome then e
          else { e with config := some cfg })
    ∧ (requestCatch cfg (JSValue.vErr e)).carriesConfig = true := by
  unfold requestCatch handleError readName
  by_cases h : e.name = "AbortError"
  · simp [h, HandleResult.carriesConfig]
  · by_cases hc : e.config.isSome <;>
      simp [attachConfig, h, hc, HandleResult.carriesConfig]

/-- C1: the code at the failing input.  For a request with a caller-supplied
cancellation handle (and no timeout of its own), the wiring selects the
caller's signal as the only cancellation source; when it fires, the
resulting AbortError is nevertheless classified by `handleError` as a
timeout error — message `Request timeout of undefinedms exceeded` — rather
than the plain cancellation error the claim (and the README's cancellation
example) requires. -/
theorem abort_from_caller_signal_classified_as_timeout :
    activeCancelSource (mergeConfig kopru.defaults { url := some "/users", signal := some () })
        = some CancelSource.caller
    ∧ requestCatch { url := some "/users", signal := some () } abortRejection
        = HandleResult.thrown
            { name := "Error", message := "Request timeout of undefinedms exceeded",
              config := some { url := some "/users", signal := some () } }
    ∧ (requestCatch { url := some "/users", signal := some () } abortRejection).isTimeoutShaped
        = true := by
  refine ⟨by decide, by decide, by decide⟩

/-- C2 (counterexample): defaults carry `timeout = 500` and the per-call
config none; the internal timer is the active cancellation source and is
armed with the merged 500 ms.  Yet when it fires, the delivered error's
message interpolates the per-call config's absent timeout — it reads
`Request timeout of undefinedms exceeded`, not naming 500 — and the error
carries the per-call config, which differs from the merged effective
config. -/
theorem timer_abort_wrong_message_and_config :
    activeCancelSource
        (mergeConfig (HttpClient.ofConfig { timeout := some 500 }).defaults { url := some "/users" })
      = some CancelSource.timer
    ∧ timerDuration (HttpClient.ofConfig { timeout := some 500 }).defaults { url := some "/users" }
        = 500
    ∧ requestCatch { url := some "/users" } abortRejection
        = HandleResult.thrown
            { name := "Error", message := "Request timeout of undefinedms exceeded",
              config := some { url := some "/users" } }
    ∧ "Request timeout of undefinedms exceeded" ≠ "Request timeout of 500ms exceeded"
    ∧ ({ url := some "/users" } : RequestConfig)
        ≠ mergeConfig (HttpClient.ofConfig { timeout := some 500 }).defaults { url := some "/users" } := by
  refine ⟨by decide, by decide, by decide, by decide, fun h => ?_⟩
  have hh := congrArg RequestConfig.timeout h
  simp [mergeConfig, HttpClient.ofConfig, shallowMerge, initialDefaults] at hh

/-- C2 (amended): a request whose transport call is aborted by the internal
timer — no caller-supplied handle, merged timeout positive — rejects with a
timeout-classified error whose message interpolates the per-call config's
timeout field (the literal text `undefined` when the timeout came only from
the instance defaults) and which carries the per-call config rather than
the merged effective config. -/
theorem timer_abort_error_shape (defaults cfg : RequestConfig)
    (h : activeCancelSource (mergeConfig defaults cfg) = some CancelSource.timer) :
    requestCatch cfg abortRejection
      = HandleResult.thrown
          { name := "Error", message := timeoutMessage cfg.timeout, config := some cfg } := by
  simp [requestCatch, handleError, readName, abortRejection]

theorem timer_abort_error_shape_witness :
    activeCancelSource (mergeConfig { timeout := some 500 } { url := some "/u" })
        = some CancelSource.timer
    ∧ requestCatch { url := some "/u" } abortRejection
        = HandleResult.thrown
            { name := "Error", message := timeoutMessage none,
              config := some { url := some "/u" } } :=
  ⟨by decide, timer_abort_error_shape { timeout := some 500 } { url := some "/u" } (by decide)⟩

/-- C6 (counterexample): deriving a client from the default instance with a
config that supplies a headers record replaces the parent's headers
wholesale: the built-in `Content-Type` entry is gone from the child's
defaults, while the Config Merger's header-level deep merge would have kept
it.  So `create` does not use the same merge as the Config Merger. -/
theorem create_headers_not_deep_merged :
    (kopru.create { headers := some [("X-Custom", "1")] }).defaults.headers
        = some [("X-Custom", "1")]
    ∧ lookupRec
        (((kopru.create { headers := some [("X-Custom", "1")] }).defaults.headers).getD [])
        "Content-Type" = none
    ∧ lookupRec
        (((mergeConfig kopru.defaults { headers := some [("X-Custom", "1")] }).headers).getD [])
        "Content-Type" = some "application/json"
    ∧ (kopru.create { headers := some [("X-Custom", "1")] }).defaults
        ≠ mergeConfig kopru.defaults { headers := some [("X-Custom", "1")] } := by
  refine ⟨by decide, by decide, by decide, by decide⟩

/-- C6 (amended): `create(config)` returns a new client whose defaults are
the shallow field-by-field overlay of the parent's defaults with `config`
(re-overlaid onto the constructor's built-in defaults) — so a headers
record in `config` replaces the parent's wholesale instead of being
key-merged — and whose interceptor chains start empty. -/
theorem create_shallow_overlay_and_empty_chains (c : HttpClient) (cfg : RequestConfig) :
    (c.create cfg).defaults.headers
        = (cfg.headers <|> c.defaults.headers <|> initialDefaults.headers)
    ∧ (c.create cfg).defaults.timeout
        = (cfg.timeout <|> c.defaults.timeout <|> initialDefaults.timeout)
    ∧ (c.create cfg).defaults.baseURL
        = (cfg.baseURL <|> c.defaults.baseURL <|> initialDefaults.baseURL)
    ∧ (c.create cfg).defaults.responseType
        = (cfg.responseType <|> c.defaults.responseType <|> initialDefaults.responseType)
    ∧ (c.create cfg).requestInterceptors = []
    ∧ (c.create cfg).responseInterceptors = [] := by
  refine ⟨?_, ?_, ?_, ?_, rfl, rfl⟩ <;>
    simp only [HttpClient.create, HttpClient.ofConfig, shallowMerge] <;>
    cases cfg.headers <;> cases cfg.timeout <;> cases cfg.baseURL <;>
      cases cfg.responseType <;> simp

/-- C7: one step of the interceptor chain runner, covering the claim's four
cases: an interceptor with no fulfillment handler is a pass-through (its
handlers are not invoked); a successful fulfillment result becomes the
current value and the chain continues sequentially; a fulfillment raise
recovered by the same interceptor's rejection handler continues the chain
as a success with the handler's result; a fulfillment raise with no
rejection handler propagates unchanged and no further interceptor runs
(the trace ends at this interceptor). -/
theorem interceptor_chain_step_semantics {V E : Type} (i : Interceptor V E)
    (rest : List (Interceptor V E)) (v : V) :
    (i.onFulfilled = none → runChainT (i :: rest) v = runChainT rest v)
    ∧ (∀ f v2, i.onFulfilled = some f → f v = Except.ok v2 →
        runChainT (i :: rest) v = ((runChainT rest v2).1, i.tag :: (runChainT rest v2).2))
    ∧ (∀ f e g v2, i.onFulfilled = some f → f v = Except.error e →
        i.onRejected = some g → g e = Except.ok v2 →
        runChainT (i :: rest) v = ((runChainT rest v2).1, i.tag :: (runChainT rest v2).2))
    ∧ (∀ f e, i.onFulfilled = some f → f v = Except.error e → i.onRejected = none →
        runChainT (i :: rest) v = (Except.error e, [i.tag])) := by
  refine ⟨fun h => ?_, fun f v2 hf hv => ?_, fun f e g v2 hf hv hr hg => ?_,
    fun f e hf hv hr => ?_⟩ <;>
    simp [runChainT, *]

theorem interceptor_chain_step_semantics_witness :
    runChainT ((⟨1, none, some (fun e => Except.ok e)⟩ : Interceptor Nat Nat) :: []) 5
        = runChainT [] 5
    ∧ runChainT ((⟨0, some (fun v => Except.ok (v + 1)), none⟩ : Interceptor Nat Nat) :: []) 5
        = ((runChainT ([] : List (Interceptor Nat Nat)) 6).1,
            0 :: (runChainT ([] : List (Interceptor Nat Nat)) 6).2)
    ∧ runChainT
        ((⟨2, some (fun _ => Except.error 9), some (fun e => Except.ok (e + 100))⟩ :
          Interceptor Nat Nat) :: []) 7
        = ((runChainT ([] : List (Interceptor Nat Nat)) 109).1,
            2 :: (runChainT ([] : List (Interceptor Nat Nat)) 109).2)
    ∧ runChainT
        ((⟨3, some (fun v => Except.error (v + 1)), none⟩ : Interceptor Nat Nat) ::
          [⟨9, some (fun v => Except.ok (v * 2)), none⟩]) 7
        = (Except.error 8, [3]) :=
  ⟨(interceptor_chain_step_semantics _ _ _).1 rfl,
   (interceptor_chain_step_semantics _ _ _).2.1 _ 6 rfl rfl,
   (interceptor_chain_step_semantics _ _ _).2.2.1 _ 9 _ 109 rfl rfl rfl rfl,
   (interceptor_chain_step_semantics _ _ _).2.2.2 _ 8 rfl rfl rfl⟩

/-- C8 (counterexample): register A (handle 0) and B (handle 1), eject
handle 0, then eject handle 1.  The second ejection is a no-op — B now sits
at index 0 and `splice(1, 1)` is out of range — so running the chain still
invokes B's fulfillment handler even though B's handle was ejected. -/
theorem ejected_handle_interceptor_still_runs :
    useInterceptor ([] : List (Interceptor Nat Nat))
        ⟨10, some (fun v => Except.ok (v + 1)), none⟩
      = ([⟨10, some (fun v => Except.ok (v + 1)), none⟩], 0)
    ∧ useInterceptor [(⟨10, some (fun v => Except.ok (v + 1)), none⟩ : Interceptor Nat Nat)]
        ⟨20, some (fun v => Except.ok (v * 10)), none⟩
      = ([⟨10, some (fun v => Except.ok (v + 1)), none⟩,
          ⟨20, some (fun v => Except.ok (v * 10)), none⟩], 1)
    ∧ ejectInterceptor
        [(⟨10, some (fun v => Except.ok (v + 1)), none⟩ : Interceptor Nat Nat),
         ⟨20, some (fun v => Except.ok (v * 10)), none⟩] 0
      = [⟨20, some (fun v => Except.ok (v * 10)), none⟩]
    ∧ ejectInterceptor
        [(⟨20, some (fun v => Except.ok (v * 10)), none⟩ : Interceptor Nat Nat)] 1
      = [⟨20, some (fun v => Except.ok (v * 10)), none⟩]
    ∧ runChainT [(⟨20, some (fun v => Except.ok (v * 10)), none⟩ : Interceptor Nat Nat)] 3
      = (Except.ok 30, [20]) :=
  ⟨rfl, rfl, rfl, rfl, rfl⟩

/-- Every tag in the run trace is the tag of some interceptor of the chain:
a chain run only invokes handlers of interceptors currently in the list. -/
theorem runChainT_trace_subset {V E : Type} (chain : List (Interceptor V E)) (v : V) :
    ∀ t ∈ (runChainT chain v).2, t ∈ chain.map Interceptor.tag := by
  induction chain generalizing v with
  | nil =>
    intro t ht
    simp [runChainT] at ht
  | cons i rest ih =>
    intro t ht
    simp only [runChainT] at ht
    simp only [List.map_cons, List.mem_cons]
    cases hf : i.onFulfilled with
    | none =>
      simp only [hf] at ht
      exact Or.inr (ih v t ht)
    | some f =>
      simp only [hf] at ht
      cases hfv : f v with
      | ok v2 =>
        simp only [hfv] at ht
        rcases List.mem_cons.mp ht with rfl | ht2
        · exact Or.inl rfl
        · exact Or.inr (ih v2 t ht2)
      | error e =>
        simp only [hfv] at ht
        cases hr : i.onRejected with
        | none =>
          simp only [hr] at ht
          rcases List.mem_cons.mp ht with rfl | ht2
          · exact Or.inl rfl
          · simp at ht2
        | some g =>
          simp only [hr] at ht
          cases hg : g e with
          | ok v2 =>
            simp only [hg] at ht
            rcases List.mem_cons.mp ht with rfl | ht2
            · exact Or.inl rfl
            · exact Or.inr (ih v2 t ht2)
          | error e2 =>
            simp only [hg] at ht
            rcases List.mem_cons.mp ht with rfl | ht2
            · exact Or.inl rfl
            · simp at ht2

/-- In a duplicate-free list, the element at index `n` is in neither the
part before `n` nor the part after it. -/
theorem nodup_not_mem_take_drop {α : Type} (l : List α) (n : Nat) (a : α)
    (hnd : l.Nodup) (hx : l[n]? = some a) : a ∉ l.take n ++ l.drop (n + 1) := by
  obtain ⟨hlen, hget⟩ := List.getElem?_eq_some.mp hx
  have hdrop : l.drop n = a :: l.drop (n + 1) := by
    rw [List.drop_eq_getElem_cons hlen, hget]
  have hl : l = l.take n ++ (a :: l.drop (n + 1)) := by
    conv_lhs => rw [← List.take_append_drop n l]
    rw [hdrop]
  rw [hl] at hnd
  rcases List.nodup_append.mp hnd with ⟨h1, h2, hdisj⟩
  intro hmem
  rcases List.mem_append.mp hmem with hmem | hmem
  · exact hdisj hmem (List.mem_cons_self a _)
  · exact (List.nodup_cons.mp h2).1 hmem

/-- When the registration tags of a chain are duplicate-free, ejecting the
index of an interceptor removes its tag from the chain. -/
theorem tag_not_in_eject {V E : Type} (chain : List (Interceptor V E)) (n : Nat)
    (x : Interceptor V E) (hnd : (chain.map Interceptor.tag).Nodup)
    (hx : chain[n]? = some x) :
    x.tag ∉ (ejectInterceptor chain n).map Interceptor.tag := by
  have hlen : n < chain.length := (List.getElem?_eq_some.mp hx).1
  have hmap : (chain.map Interceptor.tag)[n]? = some x.tag := by
    rw [List.getElem?_map, hx]
    rfl
  have hnot := nodup_not_mem_take_drop (chain.map Interceptor.tag) n x.tag hnd hmap
  simp only [ejectInterceptor, if_pos hlen, List.map_append, List.map_take, List.map_drop]
  exact hnot

/-- C8 (amended): when the handle still is the current index of the
interceptor registered under it — in particular when no earlier-handle
ejection intervened — ejection removes exactly that interceptor, and a
subsequent chain run never invokes its handlers; the original claim fails
for stale handles, which splice a shifted position (see the
counterexample). -/
theorem eject_current_index_interceptor_never_runs {V E : Type}
    (chain : List (Interceptor V E)) (n : Nat) (x : Interceptor V E) (v : V)
    (hnd : (chain.map Interceptor.tag).Nodup) (hx : chain[n]? = some x) :
    x.tag ∉ (runChainT (ejectInterceptor chain n) v).2 := by
  intro hmem
  exact tag_not_in_eject chain n x hnd hx
    (runChainT_trace_subset (ejectInterceptor chain n) v x.tag hmem)

theorem eject_current_index_interceptor_never_runs_witness :
    (([(⟨10, some (fun v => Except.ok (v + 1)), none⟩ : Interceptor Nat Nat),
       ⟨20, some (fun v => Except.ok (v * 10)), none⟩].map Interceptor.tag).Nodup
      ∧ [(⟨10, some (fun v => Except.ok (v + 1)), none⟩ : Interceptor Nat Nat),
         ⟨20, some (fun v => Except.ok (v * 10)), none⟩][0]?
          = some ⟨10, some (fun v => Except.ok (v + 1)), none⟩)
    ∧ (10 : Nat) ∉ (runChainT (ejectInterceptor
        [(⟨10, some (fun v => Except.ok (v + 1)), none⟩ : Interceptor Nat Nat),
         ⟨20, some (fun v => Except.ok (v * 10)), none⟩] 0) 3).2 :=
  ⟨⟨by simp, rfl⟩,
   eject_current_index_interceptor_never_runs
     [(⟨10, some (fun v => Except.ok (v + 1)), none⟩ : Interceptor Nat Nat),
      ⟨20, some (fun v => Except.ok (v * 10)), none⟩] 0
     ⟨10, some (fun v => Except.ok (v + 1)), none⟩ 3 (by simp) rfl⟩

end Kopru
